import Mathlib

/-!
Verification of the pgmetrics human-report renderer (`cmd/pgmetrics/report.go`)
against its natural-language specification.

The Go source is shallowly embedded below: pure helper functions become Lean
functions over `Nat`/`Int`/`String`, Go's 64-bit wraparound arithmetic is made
explicit with `% 2 ^ 64`, and fallible parsing returns `Option`.  Third-party
library routines used by the renderer (the go-humanize byte/relative-time
formatters and the Go standard library calendar formatter) are not part of the
repository; they are modelled from the specification's description and marked
as such in their doc comments.
-/

namespace PgMetrics

/-- Go conversion `uint64(x)` applied to an `int64` value `i`: reduce the
two's-complement bit pattern, i.e. `i` modulo `2 ^ 64`, into `[0, 2 ^ 64)`. -/
def toU64 (i : Int) : Nat := (i.emod (2 ^ 64)).toNat

/-- Go conversion `int64(x)` applied to a `uint64` value: reinterpret the
64-bit pattern as a signed two's-complement number. -/
def toI64 (n : Nat) : Int :=
  if n % 2 ^ 64 < 2 ^ 63 then ((n % 2 ^ 64 : Nat) : Int)
  else ((n % 2 ^ 64 : Nat) : Int) - 2 ^ 64

/-- Go `int64` subtraction `a - b`, which wraps around modulo `2 ^ 64`. -/
def subI64 (a b : Int) : Int := toI64 ((a - b).emod (2 ^ 64)).toNat

/-- Value of a single hexadecimal digit character, as accepted by Go's
`strconv.ParseUint(s, 16, 64)` (digits, lower- and upper-case letters). -/
def hexDigitVal (c : Char) : Option Nat :=
  if '0' ≤ c ∧ c ≤ '9' then some (c.toNat - '0'.toNat)
  else if 'a' ≤ c ∧ c ≤ 'f' then some (c.toNat - 'a'.toNat + 10)
  else if 'A' ≤ c ∧ c ≤ 'F' then some (c.toNat - 'A'.toNat + 10)
  else none

/-- Accumulate base-16 digits left to right; `none` on the first character
that is not a hexadecimal digit. -/
def parseHexCore : List Char → Nat → Option Nat
  | [], acc => some acc
  | c :: cs, acc =>
    match hexDigitVal c with
    | none => none
    | some d => parseHexCore cs (acc * 16 + d)

/-- Go `strconv.ParseUint(s, 16, 64)`: fails on an empty string, on any
non-hexadecimal character, and on overflow past `2 ^ 64 - 1` (Go reports a
range error, which the caller treats the same as a syntax error). -/
def parseHex64 (l : List Char) : Option Nat :=
  if l = [] then none
  else
    match parseHexCore l 0 with
    | none => none
    | some v => if v < 2 ^ 64 then some v else none

/-- Value of a single decimal digit character. -/
def decDigitVal (c : Char) : Option Nat :=
  if '0' ≤ c ∧ c ≤ '9' then some (c.toNat - '0'.toNat) else none

/-- Accumulate base-10 digits left to right; `none` on a non-digit. -/
def parseDecCore : List Char → Nat → Option Nat
  | [], acc => some acc
  | c :: cs, acc =>
    match decDigitVal c with
    | none => none
    | some d => parseDecCore cs (acc * 10 + d)

/-- Go `strconv.ParseUint(s, 10, 64)`: fails on an empty string, a non-digit
character, or overflow past `2 ^ 64 - 1`. -/
def parseDec64 (l : List Char) : Option Nat :=
  if l = [] then none
  else
    match parseDecCore l 0 with
    | none => none
    | some v => if v < 2 ^ 64 then some v else none

/-- Go `strconv.Atoi(s)` (= `ParseInt(s, 10, 64)` on a 64-bit platform):
optional sign, at least one digit, all digits, and the value must fit in
`int64`; `none` on any violation. -/
def atoi (s : String) : Option Int :=
  match s.data with
  | [] => none
  | c :: rest =>
    let signed : Bool × List Char :=
      if c = '-' then (true, rest)
      else if c = '+' then (false, rest) else (false, c :: rest)
    if signed.2 = [] then none
    else
      match parseDecCore signed.2 0 with
      | none => none
      | some v =>
        if signed.1 then
          if v ≤ 2 ^ 63 then some (-(v : Int)) else none
        else
          if v < 2 ^ 63 then some ((v : Int)) else none

/-- Split a character list at the first `'/'`, as `strings.IndexByte(s, '/')`
followed by the two slices `s[:pos]` and `s[pos+1:]` does in `lsn2int`.
Returns `none` when no `'/'` occurs. -/
def splitSlash : List Char → Option (List Char × List Char)
  | [] => none
  | c :: cs =>
    if c = '/' then some ([], cs)
    else
      match splitSlash cs with
      | none => none
      | some (l, r) => some (c :: l, r)

/-- Embedding of `lsn2int` (report.go:1237): an empty string, a string with
no `/` separator, or a side that does not parse as 64-bit hexadecimal yields
the sentinel `-1`; otherwise the value is `int64(val1 << 32 | val2)` computed
in Go `uint64` arithmetic (so the shift wraps modulo `2 ^ 64`). -/
def lsn2int (s : String) : Int :=
  if s.length = 0 then -1
  else
    match splitSlash s.data with
    | none => -1
    | some (l, r) =>
      match parseHex64 l, parseHex64 r with
      | some v1, some v2 => toI64 (((v1 <<< 32) % 2 ^ 64) ||| v2)
      | _, _ => -1

/-- Embedding of `lsnDiff` (report.go:1252): invalid (`(-1, false)`) when
either side maps to the `-1` sentinel, otherwise the `int64` difference with
a `true` validity flag. -/
def lsnDiff (a b : String) : Int × Bool :=
  let va := lsn2int a
  let vb := lsn2int b
  if va = -1 ∨ vb = -1 then (-1, false) else (subI64 va vb, true)

/-- Number of times `n` can be divided by 1024 before dropping below 1024,
computed with structural fuel (7 suffices for any value below `2 ^ 70`). -/
def ibScale : Nat → Nat → Nat
  | 0, _ => 0
  | fuel + 1, n => if n < 1024 then 0 else ibScale fuel (n / 1024) + 1

/-- Binary-prefix unit suffixes used by the byte humanizer. -/
def ibSuffixes : List String := ["B", "KiB", "MiB", "GiB", "TiB", "PiB", "EiB"]

/-- Modelled from the spec: `humanizeBytes(n)` "renders a non-negative integer
byte count using binary prefixes (KiB, MiB, GiB, ...), base 1024, one decimal
place of precision at each scale boundary" (spec 4.1).  The actual
implementation is `humanize.IBytes` from the third-party go-humanize library,
which is not under src/; its float64 rounding is modelled here by exact
truncation to one decimal place. -/
def humanizeIBytes (n : Nat) : String :=
  let e := min (ibScale 7 n) 6
  if e = 0 then toString n ++ " B"
  else
    let d10 := n * 10 / 1024 ^ e
    toString (d10 / 10) ++ "." ++ toString (d10 % 10) ++ " " ++
      ibSuffixes.getD e "EiB"

/-- Go `strings.HasSuffix(s, " ")`: a string ends with the single-byte
space character exactly when its last character is a space. -/
def endsWithSpace (s : String) : Bool := s.data.getLast? == some ' '

/-- Qualifier adjustment at the top of `fmtLag` (report.go:1180): a non-empty
qualifier not already ending in a space gets one appended. -/
def fmtLagQual (qual : String) : String :=
  if 0 < qual.length ∧ endsWithSpace qual = false then qual ++ " " else qual

/-- Embedding of `fmtLag` (report.go:1179): on a valid distance, zero renders
as "no lag" and any non-zero distance renders the humanized `uint64` cast of
the difference; an invalid distance renders nothing. -/
def fmtLag (a b qual : String) : String :=
  let q := fmtLagQual qual
  match lsnDiff a b with
  | (d, true) =>
    if d = 0 then " (no " ++ q ++ "lag)"
    else " (" ++ q ++ "lag = " ++ humanizeIBytes (toU64 d) ++ ")"
  | (_, false) => ""

/-- Embedding of `safeDiv` (report.go:1230): 0 on a zero divisor, else the
real quotient.  Go computes `float64(a) / float64(b)`; the real-number
division the spec describes is modelled exactly in `ℚ`. -/
def safeDiv (a b : Int) : ℚ := if b = 0 then 0 else (a : ℚ) / (b : ℚ)

/-- Modelled from the spec: "Percentages are rendered with exactly one decimal
digit followed by %" (spec 6).  Stands in for Go's `%.1f%%` float formatting,
using exact half-up rounding of the rational value. -/
def fmtPercent1 (q : ℚ) : String :=
  let n := (Rat.floor (q * 10 + 1 / 2)).toNat
  toString (n / 10) ++ "." ++ toString (n % 10) ++ "%"

/-- Embedding of the scheduled-checkpoint percentage computation in
`reportBGWriter` (report.go:398,404-407): `pctSched` stays 0 unless
`ncps = CheckpointsTimed + CheckpointsRequested` is strictly positive, in
which case it is `100 * CheckpointsTimed / ncps`. -/
def bgwPctSched (checkpointsTimed checkpointsRequested : Int) : ℚ :=
  let ncps := checkpointsTimed + checkpointsRequested
  if 0 < ncps then 100 * (checkpointsTimed : ℚ) / (ncps : ℚ) else 0

/-- Embedding of `fmtPct` (report.go:920): an empty string on a zero
denominator, else the one-decimal percentage. -/
def fmtPct (a b : Int) : String :=
  if b = 0 then "" else fmtPercent1 (100 * (a : ℚ) / (b : ℚ))

/-- Snapshot model: the fields of `pgmetrics.Model` (an input type defined in
the external pgmetrics package) that the verified fragments of report.go
read.  The settings map carries the raw string value of each configuration
parameter (`Setting.Setting` in Go); collections whose elements the verified
fragments never inspect are carried as `List Unit` / `Option Unit`, recording
only emptiness/presence, which is all `writeHumanTo`'s gates consult. -/
structure ModelData where
  settings : String → Option String
  metadataAt : Int
  isInRecovery : Bool
  system : Option Unit
  replicationIncoming : Option Unit
  replicationOutgoing : List Unit
  replicationSlots : List Unit
  publications : List Unit
  subscriptions : List Unit

/-- Embedding of `getSetting` (report.go:1199): the raw setting string, or
the empty string when the key is absent. -/
def getSetting (m : ModelData) (key : String) : String :=
  (m.settings key).getD ""

/-- Embedding of `getVersion` (report.go:1273): `server_version_num` parsed
with `strconv.Atoi`, 0 on any parse failure. -/
def getVersion (m : ModelData) : Int :=
  (atoi (getSetting m "server_version_num")).getD 0

/-- Embedding of `getSettingBytes` (report.go:1218): the raw string when
empty, unparsable, or zero; otherwise the raw string with the humanized
`val * factor` (Go `uint64` product, hence the `% 2 ^ 64`) appended. -/
def getSettingBytes (m : ModelData) (key : String) (factor : Nat) : String :=
  let s := getSetting m key
  if s.length = 0 then s
  else
    match parseDec64 s.data with
    | none => s
    | some val =>
      if val = 0 then s
      else s ++ " (" ++ humanizeIBytes (val * factor % 2 ^ 64) ++ ")"

/-- Embedding of `getMaxWalSize` (report.go:1282): the setting key is
`max_wal_size` from encoded version 90500 upward, `checkpoint_segments`
below that, and the value is `getSettingBytes` of that key with factor
`16 * 1024 * 1024`. -/
def getMaxWalSize (m : ModelData) : String × String :=
  let key := if 90500 ≤ getVersion m then "max_wal_size"
             else "checkpoint_segments"
  (key, getSettingBytes m key 16777216)

/-- Fields of `pgmetrics.Backend` read by the wait classifiers. -/
structure Backend where
  waitEventType : String
  waitEvent : String

/-- Embedding of `isWaitingLock` (report.go:458): the legacy convention
(both fields "waiting") or a wait-event-type of "Lock". -/
def isWaitingLock (be : Backend) : Bool :=
  if be.waitEventType = "waiting" ∧ be.waitEvent = "waiting" then true
  else decide (be.waitEventType = "Lock")

/-- Embedding of `isWaitingOther` (report.go:465): a non-empty
wait-event-type that is neither "Lock" nor "waiting". -/
def isWaitingOther (be : Backend) : Bool :=
  decide (0 < be.waitEventType.length) &&
    decide (be.waitEventType ≠ "Lock") &&
    decide (be.waitEventType ≠ "waiting")

/-- Embedding of `tableWriter.cols` (report.go:1310): the longest row
length. -/
def twCols (data : List (List String)) : Nat :=
  data.foldl (fun n row => Nat.max n row.length) 0

/-- One horizontal border: the prefix, then `+`, then per column `width + 2`
dashes and a closing `+` (report.go:1339-1346). -/
def borderLine (pfx : String) (widths : List Nat) : String :=
  pfx ++ ("+" ++ String.join (widths.map fun w =>
    String.mk (List.replicate (w + 2) '-') ++ "+"))

/-- One rendered cell: Go's `" %*s |"`, i.e. one space, the cell right
justified to the column width, one space, and the separator. -/
def cellText (w : Nat) (s : String) : String :=
  " " ++ (String.mk (List.replicate (w - s.length) ' ') ++ s) ++ " |"

/-- One data/header line: the prefix, `|`, then each cell of the row padded
to its column's width (report.go:1352-1356). -/
def rowLine (pfx : String) (widths : List Nat) (row : List String) : String :=
  pfx ++ ("|" ++ String.join (row.enum.map fun p =>
    cellText (widths.getD p.1 0) p.2))

/-- Embedding of `tableWriter.write` (report.go:1320) as the list of emitted
lines: nothing for an empty table or zero columns; otherwise a top border,
the first row, a separator border only when a second row exists (the Go loop
emits it just before index 1), the remaining rows, and a bottom border.
Rows hold pre-formatted strings, as `tableWriter.add` stores them. -/
def twWrite (data : List (List String)) (pfx : String) : List String :=
  if data.isEmpty then []
  else
    let ncols := twCols data
    if ncols = 0 then []
    else
      let widths := (List.range ncols).map fun c =>
        data.foldl (fun w row => Nat.max w ((row.getD c "").length)) 0
      match data with
      | [] => []
      | h :: t =>
        [borderLine pfx widths, rowLine pfx widths h]
          ++ (if t.isEmpty then []
              else borderLine pfx widths :: t.map (rowLine pfx widths))
          ++ [borderLine pfx widths]

/-- Claim-side column widths: for each of the `k` columns, the maximum cell
string length over all rows (header included). -/
def specWidths (data : List (List String)) (k : Nat) : List Nat :=
  (List.range k).map fun c =>
    (data.map fun r => (r.getD c "").length).foldl Nat.max 0

/-- Report sections of `writeHumanTo`, in source granularity: one tag per
renderer invocation (a renderer may print nothing for empty collections
inside its own body; the tags track the assembler of report.go:30-137). -/
inductive Section where
  | clusterSummary
  | systemInfo
  | recovery
  | replicationIn
  | replicationOut
  | replicationSlots
  | publications
  | subscriptions
  | wal
  | bgWriter
  | backends
  | vacuumProgress
  | roles
  | tablespaces
  | databases
  | tables
deriving DecidableEq

/-- The fixed top-to-bottom section order of the report. -/
def fullSectionOrder : List Section :=
  [Section.clusterSummary, Section.systemInfo, Section.recovery,
   Section.replicationIn, Section.replicationOut, Section.replicationSlots,
   Section.publications, Section.subscriptions, Section.wal,
   Section.bgWriter, Section.backends, Section.vacuumProgress,
   Section.roles, Section.tablespaces, Section.databases, Section.tables]

/-- Claim-side presence gate for each section, following the spec's list:
recovery iff in recovery, incoming iff present, outgoing/slots/publications/
subscriptions iff non-empty, vacuum progress iff version at least 90600,
system info iff the system sub-model is present, everything else always. -/
def sectionGate (m : ModelData) : Section → Bool
  | Section.clusterSummary => true
  | Section.systemInfo => m.system.isSome
  | Section.recovery => m.isInRecovery
  | Section.replicationIn => m.replicationIncoming.isSome
  | Section.replicationOut => decide (0 < m.replicationOutgoing.length)
  | Section.replicationSlots => decide (0 < m.replicationSlots.length)
  | Section.publications => decide (0 < m.publications.length)
  | Section.subscriptions => decide (0 < m.subscriptions.length)
  | Section.wal => true
  | Section.bgWriter => true
  | Section.backends => true
  | Section.vacuumProgress => decide (90600 ≤ getVersion m)
  | Section.roles => true
  | Section.tablespaces => true
  | Section.databases => true
  | Section.tables => true

/-- Embedding of the section assembly of `writeHumanTo` (report.go:99-137,
with the unconditional cluster-summary header of lines 30-97 as the first
tag): each conditional call contributes its tag under exactly the source's
guard, in source order. -/
def writeHumanSections (m : ModelData) : List Section :=
  [Section.clusterSummary]
    ++ (if m.system.isSome then [Section.systemInfo] else [])
    ++ (if m.isInRecovery then [Section.recovery] else [])
    ++ (if m.replicationIncoming.isSome then [Section.replicationIn] else [])
    ++ (if 0 < m.replicationOutgoing.length then [Section.replicationOut] else [])
    ++ (if 0 < m.replicationSlots.length then [Section.replicationSlots] else [])
    ++ (if 0 < m.publications.length then [Section.publications] else [])
    ++ (if 0 < m.subscriptions.length then [Section.subscriptions] else [])
    ++ [Section.wal, Section.bgWriter, Section.backends]
    ++ (if 90600 ≤ getVersion m then [Section.vacuumProgress] else [])
    ++ [Section.roles, Section.tablespaces, Section.databases, Section.tables]

/-- Gregorian date from a count of days since 1970-01-01 (for nonnegative
epochs): year, month, day. -/
def civilFromDays (z : Nat) : Nat × Nat × Nat :=
  let zs := z + 719468
  let era := zs / 146097
  let doe := zs % 146097
  let yoe := (doe - doe / 1460 + doe / 36524 - doe / 146096) / 365
  let y := yoe + era * 400
  let doy := doe - (365 * yoe + yoe / 4 - yoe / 100)
  let mp := (5 * doy + 2) / 153
  let d := doy - (153 * mp + 2) / 5 + 1
  let mo := if mp < 10 then mp + 3 else mp - 9
  (if mo ≤ 2 then y + 1 else y, mo, d)

/-- English month abbreviations as in Go's reference layout "2 Jan 2006". -/
def monthName (m : Nat) : String :=
  ["Jan", "Feb", "Mar", "Apr", "May", "Jun", "Jul", "Aug", "Sep", "Oct",
   "Nov", "Dec"].getD (m - 1) "Jan"

/-- Two-digit zero-padded rendering of minutes/seconds. -/
def pad2 (n : Nat) : String :=
  if n < 10 then "0" ++ toString n else toString n

/-- Modelled from the spec: `formatAbsoluteTime(epochSeconds)` "renders a
fixed calendar format" (spec 4.1).  Stands in for Go's
`time.Unix(at, 0).Format("2 Jan 2006 3:04:05 PM")` (standard library, not
under src/), rendered here in UTC for nonnegative epochs. -/
def fmtCalendar (ts : Int) : String :=
  let t := ts.toNat
  let ymd := civilFromDays (t / 86400)
  let secs := t % 86400
  let hh := secs / 3600
  let h12ap : Nat × String :=
    if hh = 0 then (12, "AM")
    else if hh < 12 then (hh, "AM")
    else if hh = 12 then (12, "PM")
    else (hh - 12, "PM")
  toString ymd.2.2 ++ " " ++ monthName ymd.2.1 ++ " " ++ toString ymd.1 ++
    " " ++ toString h12ap.1 ++ ":" ++ pad2 (secs % 3600 / 60) ++ ":" ++
    pad2 (secs % 60) ++ " " ++ h12ap.2

/-- Modelled from the spec: `formatRelativeTime` combines the absolute
rendering "with a human relative phrase (\x223 minutes ago\x22)" (spec 4.1).
Stands in for `humanize.Time(t)` of the third-party go-humanize library
(not under src/), which phrases the distance between the timestamp and the
current wall-clock instant; the clock is the explicit first argument. -/
def humanizeTime (now ts : Int) : String :=
  let d := (now - ts).toNat
  if d < 60 then toString d ++ " seconds ago"
  else if d < 3600 then toString (d / 60) ++ " minutes ago"
  else if d < 86400 then toString (d / 3600) ++ " hours ago"
  else toString (d / 86400) ++ " days ago"

/-- Embedding of `fmtTime` (report.go:1118): empty on the zero epoch, else
the calendar rendering. -/
def fmtTime (ts : Int) : String :=
  if ts = 0 then "" else fmtCalendar ts

/-- Embedding of `fmtTimeAndSince` (report.go:1132): empty on the zero
epoch, else the calendar rendering followed by the parenthesized relative
phrase, which reads the current wall-clock time (`humanize.Time`), made an
explicit `now` argument here. -/
def fmtTimeAndSince (now ts : Int) : String :=
  if ts = 0 then ""
  else fmtCalendar ts ++ " (" ++ humanizeTime now ts ++ ")"

/-- Opening fragment of `writeHumanTo`'s output stream (report.go:34-41):
the "pgmetrics run at" line renders the snapshot capture time through
`fmtTimeAndSince`, hence reads the clock. -/
def runAtLine (now : Int) (m : ModelData) : String :=
  "\npgmetrics run at: " ++ fmtTimeAndSince now m.metadataAt

/-- Fields of `pgmetrics.Tablespace` read by the size cell of
`reportTablespaces`. -/
structure Tablespace where
  size : Int

/-- Size cell of `reportTablespaces` (report.go:656-659): empty unless the
size is known (not the -1 sentinel). -/
def tablespaceSizeCell (t : Tablespace) : String :=
  if t.size ≠ -1 then humanizeIBytes (toU64 t.size) else ""

/-- Fields of `pgmetrics.Database` read by the modelled fragments of
`reportDatabases`. -/
structure Database where
  size : Int
  tempBytes : Int
  tempFiles : Int

/-- Size lines of `reportDatabases` (report.go:741-744): the whole line is
omitted when the size is the -1 sentinel. -/
def databaseSizeLines (d : Database) : List String :=
  if d.size ≠ -1
  then ["    Size:                " ++ humanizeIBytes (toU64 d.size)]
  else []

/-- Total-temp display of `reportDatabases` (report.go:722,737): the
temp-bytes counter goes through `humanize.IBytes(uint64(d.TempBytes))`
unconditionally. -/
def databaseTempDisplay (d : Database) : String :=
  humanizeIBytes (toU64 d.tempBytes) ++ " in " ++ toString d.tempFiles ++
    " files"

/-- Fields of `pgmetrics.Table` read by the size/bloat lines of
`reportTables`. -/
structure TableStats where
  size : Int
  bloat : Int

/-- Size lines of `reportTables` (report.go:1000-1003): omitted on the -1
sentinel. -/
def tableSizeLines (t : TableStats) : List String :=
  if t.size ≠ -1
  then ["    Size:                " ++ humanizeIBytes (toU64 t.size)]
  else []

/-- Bloat lines of `reportTables` (report.go:1004-1014): omitted on the -1
sentinel; with a known size the percentage of size is appended. -/
def tableBloatLines (t : TableStats) : List String :=
  if t.bloat ≠ -1 then
    if t.size ≠ -1 then
      ["    Bloat:               " ++ humanizeIBytes (toU64 t.bloat) ++
        " (" ++ fmtPercent1 (100 * safeDiv t.bloat t.size) ++ ")"]
    else
      ["    Bloat:               " ++ humanizeIBytes (toU64 t.bloat)]
  else []

/-- Fields of `pgmetrics.Index` read by the size/bloat cells of
`reportTables`. -/
structure IndexStats where
  size : Int
  bloat : Int

/-- Index size cell (report.go:1025-1027): empty on the -1 sentinel. -/
def indexSizeCell (i : IndexStats) : String :=
  if i.size ≠ -1 then humanizeIBytes (toU64 i.size) else ""

/-- Index bloat cell (report.go:1028-1036): empty on the -1 sentinel; with a
known size the percentage of size is appended. -/
def indexBloatCell (i : IndexStats) : String :=
  if i.bloat ≠ -1 then
    if i.size ≠ -1 then
      humanizeIBytes (toU64 i.bloat) ++ " (" ++
        fmtPercent1 (100 * safeDiv i.bloat i.size) ++ ")"
    else humanizeIBytes (toU64 i.bloat)
  else ""

/-- Sample snapshot whose `server_version_num` is 90500. -/
def mwal90500 : ModelData :=
  ⟨fun k => if k = "server_version_num" then some "90500" else none,
   0, false, none, none, [], [], [], []⟩

/-- Sample snapshot whose `server_version_num` is 90400. -/
def mwal90400 : ModelData :=
  ⟨fun k => if k = "server_version_num" then some "90400" else none,
   0, false, none, none, [], [], [], []⟩

/-- Sample snapshot with a zero capture timestamp. -/
def msnapZero : ModelData := ⟨fun _ => none, 0, false, none, none, [], [], [], []⟩

/-- Sample snapshot captured at epoch 999999990. -/
def msnapT : ModelData := ⟨fun _ => none, 999999990, false, none, none, [], [], [], []⟩

/-- Sample database whose temp-bytes counter carries the -1 unknown
sentinel. -/
def badTempDB : Database := ⟨-1, -1, 0⟩

/-! ## Helper lemmas -/

/-- A string has positive length exactly when it is not the empty string. -/
theorem string_length_pos (s : String) : 0 < s.length ↔ s ≠ "" := by
  cases s with
  | mk data =>
    simp [String.length, String.ext_iff, List.length_pos]

/-- Folding the row-length maximum over a nonempty list of rows that all
have length `k` yields `max a k`. -/
theorem foldl_max_len (k : Nat) :
    ∀ (data : List (List String)) (a : Nat), data ≠ [] →
      (∀ r ∈ data, r.length = k) →
      data.foldl (fun n row => Nat.max n row.length) a = Nat.max a k := by
  intro data
  induction data with
  | nil => intro a h _; exact absurd rfl h
  | cons r t ih =>
    intro a _ hu
    cases t with
    | nil => simp [List.foldl, hu r (by simp)]
    | cons r2 t2 =>
      rw [List.foldl_cons]
      rw [ih (Nat.max a r.length) (by simp)
        (fun x hx => hu x (List.mem_cons_of_mem _ hx))]
      rw [hu r (by simp)]
      exact Nat.max_eq_left (Nat.le_max_right a k)

/-- The column count of a uniform nonempty table is the shared row length. -/
theorem twCols_uniform (k : Nat) (data : List (List String))
    (hne : data ≠ []) (hu : ∀ r ∈ data, r.length = k) : twCols data = k := by
  unfold twCols
  rw [foldl_max_len k data 0 hne hu]
  exact Nat.zero_max k

/-- Appending after a conditional list distributes into both branches. -/
theorem ite_append {α : Type} (c : Prop) [Decidable c] (a b l : List α) :
    (if c then a else b) ++ l = if c then a ++ l else b ++ l := by
  split <;> rfl

/-- The assembler emits exactly the gated subsequence of the fixed section
order. -/
theorem sections_eq_filter (m : ModelData) :
    writeHumanSections m = fullSectionOrder.filter (sectionGate m) := by
  simp only [writeHumanSections, fullSectionOrder, sectionGate,
    List.filter_cons, List.filter_nil, decide_eq_true_eq,
    ite_append, List.cons_append, List.nil_append, List.singleton_append,
    List.append_assoc, List.append_nil]
  simp

/-! ## Claim theorems -/

/-- C10: the position parser accepts each hex component up to 64 bits and
computes `hi <<< 32 ||| lo` in 64-bit arithmetic, so the well-formed string
"ffffffff/ffffffff" evaluates to the unparsable sentinel -1, its distance to
"0/0" reports invalid and the lag display is suppressed, and the distinct
well-formed positions "100000000/0" and "0/0" (high components differing
above bit 31) collapse to the same value. -/
theorem lsn_wraparound_conflation :
    lsn2int "ffffffff/ffffffff" = -1 ∧
      lsnDiff "ffffffff/ffffffff" "0/0" = (-1, false) ∧
      fmtLag "ffffffff/ffffffff" "0/0" "" = "" ∧
      parseHex64 "ffffffff".data = some (2 ^ 32 - 1) ∧
      parseHex64 "ffffffffffffffff".data = some (2 ^ 64 - 1) ∧
      lsn2int "100000000/0" = lsn2int "0/0" ∧
      "100000000/0" ≠ "0/0" ∧
      splitSlash "100000000/0".data = some ("100000000".data, "0".data) := by
  refine ⟨?_, ?_, ?_, ?_, ?_, ?_, ?_, ?_⟩ <;> decide

/-- C5: every empty position string, string without a '/' separator, or
string either of whose components fails 64-bit hexadecimal parsing maps to
the -1 sentinel, and a distance over any pair with an unparsable side is
`(-1, false)` rather than a misleading zero. -/
theorem lsn_unparsable_sentinel :
    (∀ s : String,
        (s.data = [] ∨ splitSlash s.data = none ∨
          (∃ l r, splitSlash s.data = some (l, r) ∧
            (parseHex64 l = none ∨ parseHex64 r = none))) →
        lsn2int s = -1)
  ∧ (∀ a b : String, lsn2int a = -1 ∨ lsn2int b = -1 →
        lsnDiff a b = (-1, false)) := by
  constructor
  · intro s hs
    by_cases h0 : s.length = 0
    · simp [lsn2int, h0]
    · rcases hs with h | h | ⟨l, r, hsp, hbad⟩
      · exact absurd (by simp [String.length, h]) h0
      · simp [lsn2int, h0, h]
      · rcases hbad with hb | hb
        · simp [lsn2int, h0, hsp, hb]
        · cases hl : parseHex64 l <;> simp [lsn2int, h0, hsp, hb, hl]
  · intro a b h
    rcases h with h | h <;> simp [lsnDiff, h]

/-- Witness for C5 at concrete inputs: the empty string, a string without a
separator, a string with a non-hex component, and a pair with an empty
side. -/
theorem lsn_unparsable_sentinel_witness :
    lsn2int "" = -1 ∧ lsn2int "0-0" = -1 ∧ lsn2int "zz/0" = -1 ∧
      lsnDiff "" "0/0" = (-1, false) :=
  ⟨lsn_unparsable_sentinel.1 "" (Or.inl (by decide)),
   lsn_unparsable_sentinel.1 "0-0" (Or.inr (Or.inl (by decide))),
   lsn_unparsable_sentinel.1 "zz/0"
     (Or.inr (Or.inr ⟨['z', 'z'], ['0'], by decide, Or.inl (by decide)⟩)),
   lsn_unparsable_sentinel.2 "" "0/0"
     (Or.inl (lsn_unparsable_sentinel.1 "" (Or.inl (by decide))))⟩

/-- C1: for every pair of position strings and qualifier, the lag formatter
renders "no lag" when the distance is valid and zero, the humanized byte
distance when the distance is valid and positive, and nothing when either
side is unparsable (maps to the -1 sentinel, which covers every empty or
malformed position). -/
theorem fmtLag_trichotomy (a b qual : String) :
    (lsnDiff a b = (0, true) →
      fmtLag a b qual = " (no " ++ fmtLagQual qual ++ "lag)")
  ∧ (∀ d : Int, lsnDiff a b = (d, true) → 0 < d →
      fmtLag a b qual =
        " (" ++ fmtLagQual qual ++ "lag = " ++ humanizeIBytes (toU64 d) ++ ")")
  ∧ ((lsn2int a = -1 ∨ lsn2int b = -1) → fmtLag a b qual = "") := by
  refine ⟨?_, ?_, ?_⟩
  · intro h
    simp [fmtLag, h]
  · intro d h hd
    have hne : d ≠ 0 := by omega
    simp [fmtLag, h, hne]
  · intro h
    have hdiff : lsnDiff a b = (-1, false) := by
      rcases h with h | h <;> simp [lsnDiff, h]
    simp [fmtLag, hdiff]

/-- Witness for C1: a zero distance renders "no lag" with the qualifier, a
positive distance of 16 bytes renders "16 B", and an unparsable side
renders nothing. -/
theorem fmtLag_trichotomy_witness :
    fmtLag "0/10" "0/10" "write" = " (no write lag)" ∧
      fmtLag "0/20" "0/10" "" = " (lag = 16 B)" ∧
      fmtLag "bogus" "0/10" "x" = "" :=
  ⟨((fmtLag_trichotomy "0/10" "0/10" "write").1 (by decide)).trans (by decide),
   (((fmtLag_trichotomy "0/20" "0/10" "").2.1 16 (by decide)
        (by decide))).trans (by decide),
   (fmtLag_trichotomy "bogus" "0/10" "x").2.2 (Or.inl (by decide))⟩

/-- C3: a backend counts as waiting-on-locks exactly when its
wait-event-type is "Lock" or (legacy convention) both its wait-event-type
and wait-event are "waiting"; it counts as waiting-on-other exactly when its
wait-event-type is non-empty and neither "Lock" nor "waiting"; and no
backend is counted in both categories. -/
theorem backend_wait_classification (be : Backend) :
    (isWaitingLock be = true ↔
      (be.waitEventType = "Lock" ∨
        (be.waitEventType = "waiting" ∧ be.waitEvent = "waiting")))
  ∧ (isWaitingOther be = true ↔
      (be.waitEventType ≠ "" ∧ be.waitEventType ≠ "Lock" ∧
        be.waitEventType ≠ "waiting"))
  ∧ ¬(isWaitingLock be = true ∧ isWaitingOther be = true) := by
  have hlen := string_length_pos be.waitEventType
  refine ⟨?_, ?_, ?_⟩
  · by_cases h1 : be.waitEventType = "waiting" ∧ be.waitEvent = "waiting" <;>
      simp [isWaitingLock, h1]
  · simp [isWaitingOther, hlen]
    tauto
  · by_cases h1 : be.waitEventType = "waiting" ∧ be.waitEvent = "waiting" <;>
      by_cases h2 : be.waitEventType = "Lock" <;>
        simp [isWaitingLock, isWaitingOther, h1, h2]

/-- C6 (amended): `safeDiv` returns 0 whenever the divisor is 0, regardless
of the dividend, and the exact quotient otherwise.  It guards most of the
report's percentage computations, but not all of them (see the
counterexample on the background-writer percentages). -/
theorem safeDiv_zero_guard (a b : Int) :
    (b = 0 → safeDiv a b = 0) ∧ (b ≠ 0 → safeDiv a b = (a : ℚ) / (b : ℚ)) := by
  constructor <;> intro h <;> simp [safeDiv, h]

/-- Witness for C6 at the concrete divisors 0 and 2. -/
theorem safeDiv_zero_guard_witness :
    safeDiv 7 0 = 0 ∧ safeDiv 1 2 = (1 : ℚ) / (2 : ℚ) :=
  ⟨(safeDiv_zero_guard 7 0).1 rfl, (safeDiv_zero_guard 1 2).2 (by decide)⟩

/-- Counterexample for C6 as stated: the scheduled-checkpoint percentage of
the background-writer section is guarded by its own inline `ncps > 0` test,
not by `safeDiv`; at CheckpointsTimed = CheckpointsRequested = -1 the code
yields 0 while the safeDiv formula yields 50, so `safeDiv` is not the
divisor guard of every percentage computation in the report. -/
theorem safeDiv_not_sole_guard :
    bgwPctSched (-1) (-1) = 0 ∧
      100 * safeDiv (-1) ((-1) + (-1)) = 50 ∧
      bgwPctSched (-1) (-1) ≠ 100 * safeDiv (-1) ((-1) + (-1)) := by
  refine ⟨?_, ?_, ?_⟩ <;> norm_num [bgwPctSched, safeDiv]

/-- C7: the WAL settings table's size key is `max_wal_size` exactly from
encoded server version 90500 upward and `checkpoint_segments` below it. -/
theorem maxWalSize_version_gate (m : ModelData) :
    (90500 ≤ getVersion m → (getMaxWalSize m).1 = "max_wal_size")
  ∧ (getVersion m < 90500 → (getMaxWalSize m).1 = "checkpoint_segments") := by
  constructor <;> intro h
  · simp [getMaxWalSize, h]
  · simp [getMaxWalSize, not_le.mpr h]

/-- Witness for C7: version 90500 selects `max_wal_size` (the threshold is
inclusive) and version 90400 selects `checkpoint_segments`. -/
theorem maxWalSize_version_gate_witness :
    (90500 ≤ getVersion mwal90500 ∧
      (getMaxWalSize mwal90500).1 = "max_wal_size")
  ∧ (getVersion mwal90400 < 90500 ∧
      (getMaxWalSize mwal90400).1 = "checkpoint_segments") :=
  ⟨⟨by decide, (maxWalSize_version_gate mwal90500).1 (by decide)⟩,
   ⟨by decide, (maxWalSize_version_gate mwal90400).2 (by decide)⟩⟩

/-- C2 (amended): the rendered output is a deterministic function of the
snapshot, the configuration and the clock reading at render time — equal
clock readings give byte-identical output, and a zero capture timestamp
renders independently of the clock — but the output is not a function of the
snapshot and configuration alone (see the counterexample). -/
theorem render_clock_determinism (m : ModelData) (now1 now2 : Int) :
    (now1 = now2 → runAtLine now1 m = runAtLine now2 m)
  ∧ (m.metadataAt = 0 → runAtLine now1 m = runAtLine now2 m) := by
  constructor
  · intro h; rw [h]
  · intro h; simp [runAtLine, fmtTimeAndSince, h]

/-- Witness for C2 (amended) on a snapshot with a zero capture timestamp. -/
theorem render_clock_determinism_witness :
    runAtLine 5 msnapZero = runAtLine 99 msnapZero :=
  (render_clock_determinism msnapZero 5 99).2 (by decide)

/-- Counterexample for C2 as stated: the opening "pgmetrics run at" line of
the report renders the capture time through the relative-time phrase of
`fmtTimeAndSince`, so the same snapshot produces different bytes at two
different wall-clock instants. -/
theorem render_not_clock_independent :
    runAtLine 1000000000 msnapT =
        "\npgmetrics run at: 9 Sep 2001 1:46:30 AM (10 seconds ago)" ∧
      runAtLine 1000003600 msnapT =
        "\npgmetrics run at: 9 Sep 2001 1:46:30 AM (1 hours ago)" ∧
      runAtLine 1000000000 msnapT ≠ runAtLine 1000003600 msnapT := by
  refine ⟨?_, ?_, ?_⟩ <;> decide

/-- C9: the report's sections are exactly the gated subsequence of the fixed
order (cluster summary, system info, recovery, incoming replication,
outgoing replication, slots, publications, subscriptions, WAL, background
writer, backends, vacuum progress, roles, tablespaces, databases, tables),
and each gated section appears exactly under its documented condition. -/
theorem report_section_order (m : ModelData) :
    writeHumanSections m = fullSectionOrder.filter (sectionGate m)
  ∧ (Section.recovery ∈ writeHumanSections m ↔ m.isInRecovery = true)
  ∧ (Section.replicationIn ∈ writeHumanSections m ↔
      m.replicationIncoming.isSome = true)
  ∧ (Section.replicationOut ∈ writeHumanSections m ↔
      m.replicationOutgoing ≠ [])
  ∧ (Section.replicationSlots ∈ writeHumanSections m ↔
      m.replicationSlots ≠ [])
  ∧ (Section.publications ∈ writeHumanSections m ↔ m.publications ≠ [])
  ∧ (Section.subscriptions ∈ writeHumanSections m ↔ m.subscriptions ≠ [])
  ∧ (Section.vacuumProgress ∈ writeHumanSections m ↔
      90600 ≤ getVersion m) := by
  refine ⟨sections_eq_filter m, ?_, ?_, ?_, ?_, ?_, ?_, ?_⟩ <;>
    rw [sections_eq_filter m, List.mem_filter] <;>
      simp [fullSectionOrder, sectionGate, List.length_pos]

/-- C8 (amended): every guarded size/bloat field carrying the -1 unknown
sentinel renders as an empty cell or an omitted line: tablespace sizes,
database sizes, table sizes and bloats, and index sizes and bloats.  (The
per-database temp-bytes counter is not guarded; see the counterexample.) -/
theorem size_sentinel_guards (t : Tablespace) (d : Database) (tb : TableStats)
    (ix : IndexStats) :
    (t.size = -1 → tablespaceSizeCell t = "")
  ∧ (d.size = -1 → databaseSizeLines d = [])
  ∧ (tb.size = -1 → tableSizeLines tb = [])
  ∧ (tb.bloat = -1 → tableBloatLines tb = [])
  ∧ (ix.size = -1 → indexSizeCell ix = "")
  ∧ (ix.bloat = -1 → indexBloatCell ix = "") := by
  refine ⟨?_, ?_, ?_, ?_, ?_, ?_⟩ <;> intro h <;>
    simp [tablespaceSizeCell, databaseSizeLines, tableSizeLines,
      tableBloatLines, indexSizeCell, indexBloatCell, h]

/-- Witness for C8 (amended) at entities all of whose size/bloat fields
carry the -1 sentinel. -/
theorem size_sentinel_guards_witness :
    tablespaceSizeCell ⟨-1⟩ = "" ∧ databaseSizeLines ⟨-1, 0, 0⟩ = [] ∧
      tableSizeLines ⟨-1, -1⟩ = [] ∧ tableBloatLines ⟨-1, -1⟩ = [] ∧
      indexSizeCell ⟨-1, -1⟩ = "" ∧ indexBloatCell ⟨-1, -1⟩ = "" :=
  ⟨(size_sentinel_guards ⟨-1⟩ ⟨-1, 0, 0⟩ ⟨-1, -1⟩ ⟨-1, -1⟩).1 rfl,
   (size_sentinel_guards ⟨-1⟩ ⟨-1, 0, 0⟩ ⟨-1, -1⟩ ⟨-1, -1⟩).2.1 rfl,
   (size_sentinel_guards ⟨-1⟩ ⟨-1, 0, 0⟩ ⟨-1, -1⟩ ⟨-1, -1⟩).2.2.1 rfl,
   (size_sentinel_guards ⟨-1⟩ ⟨-1, 0, 0⟩ ⟨-1, -1⟩ ⟨-1, -1⟩).2.2.2.1 rfl,
   (size_sentinel_guards ⟨-1⟩ ⟨-1, 0, 0⟩ ⟨-1, -1⟩ ⟨-1, -1⟩).2.2.2.2.1 rfl,
   (size_sentinel_guards ⟨-1⟩ ⟨-1, 0, 0⟩ ⟨-1, -1⟩ ⟨-1, -1⟩).2.2.2.2.2 rfl⟩

/-- Counterexample for C8 as stated: the per-database temp-bytes counter is
passed to byte humanization unconditionally, so the -1 unknown sentinel is
cast to 2^64 - 1 and rendered as a bogus huge quantity instead of an empty
display. -/
theorem tempBytes_humanized_counterexample :
    badTempDB.tempBytes = -1 ∧
      toU64 (-1) = 2 ^ 64 - 1 ∧
      databaseTempDisplay badTempDB = "15.9 EiB in 0 files" ∧
      databaseTempDisplay badTempDB ≠ "" := by
  refine ⟨rfl, ?_, ?_, ?_⟩ <;> decide

/-- C4 (amended): for a uniform table with at least one column and at least
one data row, the emitted lines are exactly top border, header row,
separator border, the data rows in insertion order, and bottom border, with
the column widths being the per-column maxima of cell lengths over all rows
(header included); the line count is the row count plus 3; every emitted
line starts with the caller-supplied prefix; and a table with no rows emits
nothing.  (A header-only table omits the separator; see the
counterexample.) -/
theorem tableWriter_geometry (pfx : String) (h : List String)
    (t : List (List String)) (k : Nat)
    (hu : ∀ r ∈ h :: t, r.length = k) (hk : 0 < k) (ht : t ≠ []) :
    twWrite (h :: t) pfx =
      [borderLine pfx (specWidths (h :: t) k),
       rowLine pfx (specWidths (h :: t) k) h,
       borderLine pfx (specWidths (h :: t) k)]
        ++ t.map (rowLine pfx (specWidths (h :: t) k))
        ++ [borderLine pfx (specWidths (h :: t) k)]
    ∧ (twWrite (h :: t) pfx).length = (h :: t).length + 3
    ∧ (∀ l ∈ twWrite (h :: t) pfx, ∃ rest, l = pfx ++ rest)
    ∧ twWrite [] pfx = [] := by
  have hcols : twCols (h :: t) = k := twCols_uniform k (h :: t) (by simp) hu
  have hkne : ¬k = 0 := by omega
  have htne : t.isEmpty = false := by
    cases t with
    | nil => exact absurd rfl ht
    | cons a l => rfl
  have hwid : ((List.range k).map fun c =>
      (h :: t).foldl (fun w row => Nat.max w ((row.getD c "").length)) 0) =
      specWidths (h :: t) k := by
    simp only [specWidths, List.foldl_map]
  have hmain : twWrite (h :: t) pfx =
      [borderLine pfx (specWidths (h :: t) k),
       rowLine pfx (specWidths (h :: t) k) h,
       borderLine pfx (specWidths (h :: t) k)]
        ++ t.map (rowLine pfx (specWidths (h :: t) k))
        ++ [borderLine pfx (specWidths (h :: t) k)] := by
    unfold twWrite
    simp only [List.isEmpty_cons, Bool.false_eq_true, if_false]
    rw [hcols, if_neg hkne, hwid, htne]
    simp only [Bool.false_eq_true, if_false]
    simp
  refine ⟨hmain, ?_, ?_, ?_⟩
  · rw [hmain]
    simp
  · intro l hl
    rw [hmain] at hl
    simp only [List.mem_append, List.mem_cons, List.mem_map,
      List.not_mem_nil, or_false] at hl
    rcases hl with ((rfl | rfl | rfl) | ⟨r, _, rfl⟩) | rfl <;> exact ⟨_, rfl⟩
  · rfl

/-- Witness for C4 at the spec's own example: header ["A", "BB"] and one
data row ["X", "Y"], giving widths [1, 2] and 5 emitted lines. -/
theorem tableWriter_geometry_witness :
    specWidths [["A", "BB"], ["X", "Y"]] 2 = [1, 2] ∧
      twWrite [["A", "BB"], ["X", "Y"]] "" =
        [borderLine "" (specWidths [["A", "BB"], ["X", "Y"]] 2),
         rowLine "" (specWidths [["A", "BB"], ["X", "Y"]] 2) ["A", "BB"],
         borderLine "" (specWidths [["A", "BB"], ["X", "Y"]] 2)]
          ++ [["X", "Y"]].map
              (rowLine "" (specWidths [["A", "BB"], ["X", "Y"]] 2))
          ++ [borderLine "" (specWidths [["A", "BB"], ["X", "Y"]] 2)] ∧
      (twWrite [["A", "BB"], ["X", "Y"]] "").length = 5 :=
  ⟨by decide,
   (tableWriter_geometry "" ["A", "BB"] [["X", "Y"]] 2 (by decide) (by decide)
      (by decide)).1,
   ((tableWriter_geometry "" ["A", "BB"] [["X", "Y"]] 2 (by decide)
      (by decide) (by decide)).2.1).trans (by decide)⟩

/-- Counterexample for C4 as stated: a table holding only a header row emits
3 lines (top border, header, bottom border) with no separator border, not
rows + 3 = 4 lines. -/
theorem tableWriter_header_only_counterexample :
    twWrite [["A", "BB"]] "" = ["+---+----+", "| A | BB |", "+---+----+"] ∧
      (twWrite [["A", "BB"]] "").length ≠ [["A", "BB"]].length + 3 := by
  refine ⟨?_, ?_⟩ <;> decide

end PgMetrics
